import Mathlib

/-!
Verification of the WebFlight flight-dynamics core
(src/wasm/src/simulation.h, src/wasm/src/simulation.cpp).

The C++ code works on IEEE `float`; we embed it with exact real
arithmetic (`ℝ`): every arithmetic operation of the source is translated
literally, with `std::max`/`std::min` as `max`/`min`, `std::exp`, `std::sin`,
`std::cos`, `std::sqrt`, `std::atan2` as their real counterparts, and the
two angle-normalisation `while` loops in `FlightDynamics::update` in closed
form (see `wrapAngle` below, with its loop-faithfulness noted there).
-/

noncomputable section

namespace WebFlight

open Real

/-- Three-component vector, from `struct Vec3` (simulation.h lines 8-33). -/
@[ext]
structure Vec3 where
  x : ℝ
  y : ℝ
  z : ℝ

/-- Vector addition, `Vec3::operator+`. -/
def Vec3.add (a b : Vec3) : Vec3 :=
  ⟨a.x + b.x, a.y + b.y, a.z + b.z⟩

/-- Scalar multiple (scalar on the right, as in the source), `Vec3::operator*`. -/
def Vec3.smul (a : Vec3) (s : ℝ) : Vec3 :=
  ⟨a.x * s, a.y * s, a.z * s⟩

/-- Euclidean length, `Vec3::length`. -/
def Vec3.length (a : Vec3) : ℝ :=
  Real.sqrt (a.x * a.x + a.y * a.y + a.z * a.z)

/-- Normalisation, `Vec3::normalized`: divides by the length when it is positive,
otherwise returns the vector itself. -/
def Vec3.normalized (a : Vec3) : Vec3 :=
  if a.length > 0 then ⟨a.x / a.length, a.y / a.length, a.z / a.length⟩ else a

/-- Mutable aircraft state, `struct AircraftState` (simulation.h lines 36-68). -/
structure AircraftState where
  position : Vec3
  velocity : Vec3
  heading : ℝ
  pitch : ℝ
  roll : ℝ
  headingRate : ℝ
  pitchRate : ℝ
  rollRate : ℝ
  throttle : ℝ
  thrust : ℝ
  aileron : ℝ
  elevator : ℝ
  rudder : ℝ
  mass : ℝ
  altitude : ℝ
  airspeed : ℝ

/-- The `AircraftState` default constructor (simulation.cpp lines 5-13):
everything zero except `mass = 10000`. -/
def AircraftState.initial : AircraftState :=
  { position := ⟨0, 0, 0⟩
    velocity := ⟨0, 0, 0⟩
    heading := 0, pitch := 0, roll := 0
    headingRate := 0, pitchRate := 0, rollRate := 0
    throttle := 0, thrust := 0
    aileron := 0, elevator := 0, rudder := 0
    mass := 10000, altitude := 0, airspeed := 0 }

/-- Per-type configuration, `struct AircraftProperties`: the fields of the header plus the five
extra fields that `setF16Properties` / `setAircraftProperties` assign in
simulation.cpp (`thrustMilitary`, the critical angles of attack,
`minManeuverableSpeed`, `maxSpeed`). -/
structure AircraftProperties where
  name : String
  emptyMass : ℝ
  maxFuel : ℝ
  wingArea : ℝ
  wingSpan : ℝ
  maxThrust : ℝ
  thrustSFC : ℝ
  Cl0 : ℝ
  ClAlpha : ℝ
  Cd0 : ℝ
  K : ℝ
  ClMax : ℝ
  aileronEffect : ℝ
  elevatorEffect : ℝ
  rudderEffect : ℝ
  thrustMilitary : ℝ
  criticalAOAPositive : ℝ
  criticalAOANegative : ℝ
  minManeuverableSpeed : ℝ
  maxSpeed : ℝ

/-- The record written by `AircraftProperties::setF16Properties`
(simulation.cpp lines 20-51); it assigns every field, so the method is a
wholesale replacement by this constant. -/
def f16Properties : AircraftProperties :=
  { name := "F-16 Fighting Falcon"
    emptyMass := 8570
    maxFuel := 3175
    wingArea := 27.87
    wingSpan := 9.96
    maxThrust := 127000
    thrustSFC := 0.00008
    Cl0 := 0
    ClAlpha := 5.5
    Cd0 := 0.02
    K := 0.042
    ClMax := 1.4
    aileronEffect := 0.5
    elevatorEffect := 0.4
    rudderEffect := 0.3
    thrustMilitary := 76000
    criticalAOAPositive := 0.384
    criticalAOANegative := -0.262
    minManeuverableSpeed := 20
    maxSpeed := 686 }

/-- Data owned by `class FlightDynamics`: one state, one properties record,
the fuel scalar (simulation.h lines 101-110). -/
structure FlightDynamics where
  state : AircraftState
  props : AircraftProperties
  fuel : ℝ

/-- The member constant `gravity = 9.81f` (never mutated). -/
def gravity : ℝ := 9.81

/-- The member constant `airDensity = 1.225f` (sea level, never mutated). -/
def seaLevelDensity : ℝ := 1.225

/-- The `std::max(lo, std::min(hi, v))` clamping pattern used throughout
simulation.cpp. -/
def clamp (lo hi v : ℝ) : ℝ := max lo (min hi v)

/-- Closed form of the angle-normalisation loops of
`FlightDynamics::update` (simulation.cpp lines 181-182 and 188-189):
`while (a > π) a -= 2π; while (a < -π) a += 2π;`.
For `x > π` the first loop runs exactly `⌈(x-π)/(2π)⌉` times and the
second never runs; for `x < -π` the second runs exactly `⌈(-π-x)/(2π)⌉`
times; otherwise neither runs.  `wrapAngle_sub` and `wrapAngle_mem_Icc`
below certify this reading. -/
def wrapAngle (x : ℝ) : ℝ :=
  if x > π then x - 2 * π * (⌈(x - π) / (2 * π)⌉ : ℤ)
  else if x < -π then x + 2 * π * (⌈(-π - x) / (2 * π)⌉ : ℤ)
  else x

/-- Atmosphere model, `FlightDynamics::getAirDensity` (simulation.cpp lines 192-195). -/
def getAirDensity (altitude : ℝ) : ℝ :=
  seaLevelDensity * Real.exp (-altitude / 8000)

/-- Dynamic pressure, `FlightDynamics::getDynamicPressure` (simulation.cpp lines 197-200). -/
def getDynamicPressure (fd : FlightDynamics) : ℝ :=
  0.5 * getAirDensity fd.state.altitude * fd.state.airspeed * fd.state.airspeed

/-- Two-argument arctangent, `std::atan2`, on reals (only the `x > 0` branch is ever reached through
the guarded call in `calculateAerodynamicForces`). -/
def atan2 (y x : ℝ) : ℝ :=
  if 0 < x then Real.arctan (y / x)
  else if x < 0 then
    (if 0 ≤ y then Real.arctan (y / x) + π else Real.arctan (y / x) - π)
  else if 0 < y then π / 2
  else if y < 0 then -(π / 2)
  else 0

/-- Initialisation, `FlightDynamics::initialize` (simulation.cpp lines 58-65): seeds
position, heading, altitude, a 100 m/s velocity along the heading, the
matching airspeed, and refuels to half of `maxFuel`.
(Named `initialise` because the source's spelling is a Lean keyword.) -/
def initialise (fd : FlightDynamics) (position : Vec3) (heading : ℝ) :
    FlightDynamics :=
  let velocity : Vec3 := ⟨100 * Real.cos heading, 0, 100 * Real.sin heading⟩
  { fd with
      state := { fd.state with
        position := position
        heading := heading
        altitude := position.y
        velocity := velocity
        airspeed := velocity.length }
      fuel := fd.props.maxFuel * 0.5 }

/-- Type selection, `FlightDynamics::setAircraftType` (simulation.cpp lines 67-72): the
only known preset is `"F-16"`; any other name changes nothing. -/
def setAircraftType (fd : FlightDynamics) (type : String) : FlightDynamics :=
  if type = "F-16" then { fd with props := f16Properties } else fd

/-- Property override, `FlightDynamics::setAircraftProperties` (simulation.cpp lines 74-96):
overwrites nine property fields, refreshes `state.mass = emptyMass + fuel`
and recomputes `K = 1/(3.14159·0.8·AR)` with `AR = wingSpan²/wingArea`. -/
def setAircraftProperties (fd : FlightDynamics)
    (emptyMass maxFuel wingArea maxThrust thrustMilitary
     critAOAPos critAOANeg minManeuverSpeed maxSpeed : ℝ) : FlightDynamics :=
  let props1 := { fd.props with
    emptyMass := emptyMass
    maxFuel := maxFuel
    wingArea := wingArea
    maxThrust := maxThrust
    thrustMilitary := thrustMilitary
    criticalAOAPositive := critAOAPos
    criticalAOANegative := critAOANeg
    minManeuverableSpeed := minManeuverSpeed
    maxSpeed := maxSpeed }
  let AR := props1.wingSpan * props1.wingSpan / props1.wingArea
  { state := { fd.state with mass := emptyMass + fd.fuel }
    props := { props1 with K := 1 / (3.14159 * 0.8 * AR) }
    fuel := fd.fuel }

/-- Throttle input, `FlightDynamics::setThrottle` (simulation.cpp lines 98-100). -/
def setThrottle (fd : FlightDynamics) (throttle : ℝ) : FlightDynamics :=
  { fd with state := { fd.state with throttle := clamp 0 1 throttle } }

/-- Control-surface input, `FlightDynamics::setControlSurfaces` (simulation.cpp lines 102-106). -/
def setControlSurfaces (fd : FlightDynamics)
    (aileron elevator rudder : ℝ) : FlightDynamics :=
  { fd with state := { fd.state with
      aileron := clamp (-1) 1 aileron
      elevator := clamp (-1) 1 elevator
      rudder := clamp (-1) 1 rudder } }

/-- Reset, `FlightDynamics::reset` (simulation.cpp lines 336-339): default state,
fuel at half of the (current) `maxFuel`, properties untouched. -/
def reset (fd : FlightDynamics) : FlightDynamics :=
  { fd with state := AircraftState.initial, fuel := fd.props.maxFuel * 0.5 }

/-- The `FlightDynamics` constructor (simulation.cpp lines 54-56):
default-constructed state and properties (F-16), `fuel(1000.0f)`, then
`reset()` — which overwrites fuel with `maxFuel * 0.5`. -/
def mkFlightDynamics : FlightDynamics :=
  reset { state := AircraftState.initial, props := f16Properties, fuel := 1000 }

/-- Aerodynamic force model, `FlightDynamics::calculateAerodynamicForces`
(simulation.cpp lines 202-287), translated clause by clause; reads the
state fields exactly as the `const` method does. -/
def calculateAerodynamicForces (fd : FlightDynamics) : Vec3 :=
  let q := getDynamicPressure fd
  let S := fd.props.wingArea
  let velocityMagnitude := fd.state.velocity.length
  let alpha0 : ℝ :=
    if velocityMagnitude > 0.1 then
      let horizontalSpeed := Real.sqrt
        (fd.state.velocity.x * fd.state.velocity.x +
         fd.state.velocity.z * fd.state.velocity.z)
      if horizontalSpeed > 0.1 then
        atan2 (-fd.state.velocity.y) horizontalSpeed + fd.state.pitch
      else 0
    else 0
  let alpha := max fd.props.criticalAOANegative
    (min fd.props.criticalAOAPositive alpha0)
  let Cl1 := fd.props.Cl0 + fd.props.ClAlpha * alpha
  let Cl2 :=
    if alpha > fd.props.criticalAOAPositive * 0.8 then
      Cl1 * max 0.3 (1 - (alpha - fd.props.criticalAOAPositive * 0.8) /
        (fd.props.criticalAOAPositive * 0.2))
    else Cl1
  let Cl := max (-fd.props.ClMax) (min fd.props.ClMax Cl2)
  let lift := q * S * Cl
  let Cd1 := fd.props.Cd0 + fd.props.K * Cl * Cl
  let Cd :=
    if fd.state.airspeed > fd.props.maxSpeed * 0.8 then
      Cd1 + (fd.state.airspeed - fd.props.maxSpeed * 0.8) /
        (fd.props.maxSpeed * 0.2) * 0.1
    else Cd1
  let drag := q * S * Cd
  let sideForce := q * S * fd.state.rudder * fd.props.rudderEffect * 0.2
  if velocityMagnitude > 0.1 then
    let velocityDir := fd.state.velocity.normalized
    let liftDir0 : Vec3 :=
      ⟨-velocityDir.y * Real.cos fd.state.heading,
       velocityDir.x * Real.cos fd.state.heading +
         velocityDir.z * Real.sin fd.state.heading,
       -velocityDir.y * Real.sin fd.state.heading⟩
    let liftDir := liftDir0.normalized
    let liftVector := liftDir.smul lift
    let dragVector := velocityDir.smul (-drag)
    let sideVector : Vec3 :=
      ⟨-sideForce * Real.sin fd.state.heading, 0,
       sideForce * Real.cos fd.state.heading⟩
    (liftVector.add dragVector).add sideVector
  else
    ⟨0, 0, 0⟩

/-- Moment model, `FlightDynamics::calculateMoments` (simulation.cpp lines 289-334). -/
def calculateMoments (fd : FlightDynamics) : Vec3 :=
  let q := getDynamicPressure fd
  let S := fd.props.wingArea
  let b := fd.props.wingSpan
  let c := S / b
  let rollMoment := q * S * b * fd.state.aileron * fd.props.aileronEffect -
    q * S * b * b * fd.state.rollRate * 0.1
  let adverseYaw := -fd.state.aileron * fd.props.aileronEffect * 0.2
  let pitchMoment0 := q * S * c * fd.state.elevator * fd.props.elevatorEffect -
    q * S * c * c * fd.state.pitchRate * 0.2
  let pitchMoment :=
    if fd.state.airspeed > fd.props.maxSpeed * 0.7 then
      pitchMoment0 - q * S * c * ((fd.state.airspeed - fd.props.maxSpeed * 0.7) /
        (fd.props.maxSpeed * 0.3)) * 0.1
    else pitchMoment0
  let yawMoment := q * S * b * fd.state.rudder * fd.props.rudderEffect -
    q * S * b * b * fd.state.headingRate * 0.15 + q * S * b * adverseYaw
  ⟨rollMoment * 0.001, pitchMoment * 0.001, yawMoment * 0.001⟩

/-- Per-tick integrator, `FlightDynamics::update` (simulation.cpp lines 108-190), with the
source's exact sequencing: mass and thrust are written before the fuel
branch; the aerodynamic forces read the pre-integration state; the
moments read the state after velocity/position/altitude/airspeed are
integrated but before the angular rates change. -/
def update (fd : FlightDynamics) (deltaTime : ℝ) : FlightDynamics :=
  let mass := fd.props.emptyMass + fd.fuel
  let thrust := fd.state.throttle * fd.props.maxThrust
  let fuel :=
    if thrust > 0 ∧ fd.fuel > 0 then
      max 0 (fd.fuel - thrust * fd.props.thrustSFC * deltaTime)
    else fd.fuel
  let s1 := { fd.state with mass := mass, thrust := thrust }
  let thrustForce : Vec3 :=
    ⟨thrust * Real.cos s1.pitch * Real.cos s1.heading,
     thrust * Real.sin s1.pitch,
     thrust * Real.cos s1.pitch * Real.sin s1.heading⟩
  let weight : Vec3 := ⟨0, -mass * gravity, 0⟩
  let aeroForces := calculateAerodynamicForces ⟨s1, fd.props, fuel⟩
  let totalForce := (thrustForce.add weight).add aeroForces
  let acceleration := totalForce.smul (1 / mass)
  let velocity := s1.velocity.add (acceleration.smul deltaTime)
  let position := s1.position.add (velocity.smul deltaTime)
  let s2 := { s1 with
    velocity := velocity
    position := position
    altitude := position.y
    airspeed := velocity.length }
  let moments := calculateMoments ⟨s2, fd.props, fuel⟩
  let Ixx := s2.mass * fd.props.wingSpan * fd.props.wingSpan * 0.1
  let Iyy := s2.mass * fd.props.wingSpan * fd.props.wingSpan * 0.2
  let Izz := s2.mass * fd.props.wingSpan * fd.props.wingSpan * 0.3
  let rollRate := clamp (-5) 5 (s2.rollRate + moments.x / Ixx * deltaTime)
  let pitchRate := clamp (-3) 3 (s2.pitchRate + moments.y / Iyy * deltaTime)
  let headingRate := clamp (-2) 2 (s2.headingRate + moments.z / Izz * deltaTime)
  let roll := wrapAngle (s2.roll + rollRate * deltaTime)
  let pitch := clamp (-(π * 0.45)) (π * 0.45) (s2.pitch + pitchRate * deltaTime)
  let heading := wrapAngle (s2.heading + headingRate * deltaTime)
  { state := { s2 with
      rollRate := rollRate
      pitchRate := pitchRate
      headingRate := headingRate
      roll := roll
      pitch := pitch
      heading := heading }
    props := fd.props
    fuel := fuel }

/-- A sequence of `update` calls (the claims about "any sequence of
`update(dt)` calls" quantify over the list of time steps). -/
def updateSeq (fd : FlightDynamics) (dts : List ℝ) : FlightDynamics :=
  dts.foldl update fd

/-! ### Basic lemmas about the clamping and wrapping primitives -/

theorem clamp_le (lo hi v : ℝ) (h : lo ≤ hi) : clamp lo hi v ≤ hi :=
  max_le h (min_le_left _ _)

theorem le_clamp (lo hi v : ℝ) : lo ≤ clamp lo hi v :=
  le_max_left _ _

theorem clamp_eq_self (lo hi v : ℝ) (h1 : lo ≤ v) (h2 : v ≤ hi) :
    clamp lo hi v = v := by
  unfold clamp
  rw [min_eq_right h2, max_eq_right h1]

theorem abs_clamp_le (c v : ℝ) (h : 0 ≤ c) : |clamp (-c) c v| ≤ c :=
  abs_le.mpr ⟨le_clamp _ _ _, clamp_le _ _ _ (by linarith)⟩

/-- The closed form `wrapAngle` really is the source's pair of `while`
loops: it only ever shifts its argument by whole multiples of `2π`. -/
theorem wrapAngle_sub_int_mul (x : ℝ) : ∃ k : ℤ, wrapAngle x = x - 2 * π * k := by
  unfold wrapAngle
  split_ifs with h1 h2
  · exact ⟨_, rfl⟩
  · exact ⟨-⌈(-π - x) / (2 * π)⌉, by push_cast; ring⟩
  · exact ⟨0, by simp⟩

theorem wrapAngle_mem (x : ℝ) : -π ≤ wrapAngle x ∧ wrapAngle x ≤ π := by
  have h2π : (0 : ℝ) < 2 * π := by linarith [Real.pi_pos]
  unfold wrapAngle
  split_ifs with h1 h2
  · have hle := Int.le_ceil ((x - π) / (2 * π))
    have hlt := Int.ceil_lt_add_one ((x - π) / (2 * π))
    have h3 : x - π ≤ (⌈(x - π) / (2 * π)⌉ : ℝ) * (2 * π) :=
      (div_le_iff₀ h2π).mp hle
    have h4 : ((⌈(x - π) / (2 * π)⌉ : ℝ) - 1) * (2 * π) < x - π :=
      (lt_div_iff₀ h2π).mp (by linarith)
    constructor <;> nlinarith
  · have hle := Int.le_ceil ((-π - x) / (2 * π))
    have hlt := Int.ceil_lt_add_one ((-π - x) / (2 * π))
    have h3 : -π - x ≤ (⌈(-π - x) / (2 * π)⌉ : ℝ) * (2 * π) :=
      (div_le_iff₀ h2π).mp hle
    have h4 : ((⌈(-π - x) / (2 * π)⌉ : ℝ) - 1) * (2 * π) < -π - x :=
      (lt_div_iff₀ h2π).mp (by linarith)
    constructor <;> nlinarith
  · exact ⟨by linarith, by linarith⟩

theorem wrapAngle_eq_self (x : ℝ) (h1 : -π ≤ x) (h2 : x ≤ π) :
    wrapAngle x = x := by
  unfold wrapAngle
  rw [if_neg (not_lt.mpr h2), if_neg (not_lt.mpr h1)]

/-! ### Projection lemmas for `update` -/

theorem update_props (fd : FlightDynamics) (dt : ℝ) :
    (update fd dt).props = fd.props := rfl

theorem update_mass (fd : FlightDynamics) (dt : ℝ) :
    (update fd dt).state.mass = fd.props.emptyMass + fd.fuel := rfl

theorem update_fuel (fd : FlightDynamics) (dt : ℝ) :
    (update fd dt).fuel =
      if fd.state.throttle * fd.props.maxThrust > 0 ∧ fd.fuel > 0 then
        max 0 (fd.fuel -
          fd.state.throttle * fd.props.maxThrust * fd.props.thrustSFC * dt)
      else fd.fuel := rfl

theorem update_throttle (fd : FlightDynamics) (dt : ℝ) :
    (update fd dt).state.throttle = fd.state.throttle := rfl

/-- The new roll rate is the clamp of the old roll rate plus an
(angular-acceleration) term multiplied by `dt`. -/
theorem update_rollRate_shape (fd : FlightDynamics) (dt : ℝ) :
    ∃ a, (update fd dt).state.rollRate =
      clamp (-5) 5 (fd.state.rollRate + a * dt) := ⟨_, rfl⟩

theorem update_pitchRate_shape (fd : FlightDynamics) (dt : ℝ) :
    ∃ a, (update fd dt).state.pitchRate =
      clamp (-3) 3 (fd.state.pitchRate + a * dt) := ⟨_, rfl⟩

theorem update_headingRate_shape (fd : FlightDynamics) (dt : ℝ) :
    ∃ a, (update fd dt).state.headingRate =
      clamp (-2) 2 (fd.state.headingRate + a * dt) := ⟨_, rfl⟩

theorem update_roll_shape (fd : FlightDynamics) (dt : ℝ) :
    (update fd dt).state.roll =
      wrapAngle (fd.state.roll + (update fd dt).state.rollRate * dt) := rfl

theorem update_pitch_shape (fd : FlightDynamics) (dt : ℝ) :
    (update fd dt).state.pitch =
      clamp (-(π * 0.45)) (π * 0.45)
        (fd.state.pitch + (update fd dt).state.pitchRate * dt) := rfl

theorem update_heading_shape (fd : FlightDynamics) (dt : ℝ) :
    (update fd dt).state.heading =
      wrapAngle (fd.state.heading + (update fd dt).state.headingRate * dt) := rfl

theorem update_velocity_shape (fd : FlightDynamics) (dt : ℝ) :
    ∃ a, (update fd dt).state.velocity =
      fd.state.velocity.add (Vec3.smul a dt) := ⟨_, rfl⟩

theorem update_position_shape (fd : FlightDynamics) (dt : ℝ) :
    (update fd dt).state.position =
      fd.state.position.add ((update fd dt).state.velocity.smul dt) := rfl

/-! ### Fuel behaviour of a single `update` and of sequences -/

theorem update_fuel_le (fd : FlightDynamics) (dt : ℝ)
    (hSFC : 0 ≤ fd.props.thrustSFC) (hdt : 0 ≤ dt) :
    (update fd dt).fuel ≤ fd.fuel := by
  rw [update_fuel]
  split_ifs with h
  · have hflow : 0 ≤ fd.state.throttle * fd.props.maxThrust *
        fd.props.thrustSFC * dt :=
      mul_nonneg (mul_nonneg h.1.le hSFC) hdt
    exact max_le h.2.le (by linarith)
  · exact le_refl _

theorem update_fuel_nonneg (fd : FlightDynamics) (dt : ℝ)
    (h : 0 ≤ fd.fuel) : 0 ≤ (update fd dt).fuel := by
  rw [update_fuel]
  split_ifs
  · exact le_max_left _ _
  · exact h

theorem updateSeq_fuel (fd : FlightDynamics) (dts : List ℝ)
    (hSFC : 0 ≤ fd.props.thrustSFC) (hdts : ∀ d ∈ dts, 0 ≤ d) :
    (updateSeq fd dts).fuel ≤ fd.fuel ∧
      (0 ≤ fd.fuel → 0 ≤ (updateSeq fd dts).fuel) := by
  induction dts generalizing fd with
  | nil => exact ⟨le_refl _, fun h => h⟩
  | cons d ds ih =>
    have hd : 0 ≤ d := hdts d (List.mem_cons_self d ds)
    have hds : ∀ x ∈ ds, 0 ≤ x := fun x hx => hdts x (List.mem_cons_of_mem d hx)
    have hSFC' : 0 ≤ (update fd d).props.thrustSFC := by
      rw [update_props]; exact hSFC
    have hstep := update_fuel_le fd d hSFC hd
    have hrec := ih (update fd d) hSFC' hds
    refine ⟨le_trans hrec.1 hstep, fun h0 => hrec.2 ?_⟩
    exact update_fuel_nonneg fd d h0

theorem sqrt_ten_thousand : Real.sqrt 10000 = 100 := by
  rw [show (10000 : ℝ) = 100 ^ 2 by norm_num]
  exact Real.sqrt_sq (by norm_num)

theorem length_100 : Vec3.length ⟨100, 0, 0⟩ = 100 := by
  unfold Vec3.length
  norm_num [sqrt_ten_thousand]

/-- The y-component of the velocity written by `update`, spelled out from
the definition (pure projection, proved by `rfl`). -/
theorem update_velocity_y (fd : FlightDynamics) (dt : ℝ) :
    (update fd dt).state.velocity.y =
      fd.state.velocity.y +
        ((fd.state.throttle * fd.props.maxThrust * Real.sin fd.state.pitch +
            -(fd.props.emptyMass + fd.fuel) * gravity +
            (calculateAerodynamicForces
              ⟨{ fd.state with
                  mass := fd.props.emptyMass + fd.fuel
                  thrust := fd.state.throttle * fd.props.maxThrust },
                fd.props,
                if fd.state.throttle * fd.props.maxThrust > 0 ∧ fd.fuel > 0 then
                  max 0 (fd.fuel - fd.state.throttle * fd.props.maxThrust *
                    fd.props.thrustSFC * dt)
                else fd.fuel⟩).y) *
          (1 / (fd.props.emptyMass + fd.fuel))) * dt := rfl

theorem updateSeq_props (fd : FlightDynamics) (dts : List ℝ) :
    (updateSeq fd dts).props = fd.props := by
  induction dts generalizing fd with
  | nil => rfl
  | cons d ds ih => exact (ih (update fd d)).trans (update_props fd d)

/-! ### Claim theorems -/

/-- C5: the atmosphere model is `density(h) = 1.225 · exp(-h/8000)`; it is
strictly decreasing in altitude, and below zero altitude it returns a
value strictly above the sea-level density 1.225 (no clamping). -/
theorem C5_air_density :
    (∀ h : ℝ, getAirDensity h = 1.225 * Real.exp (-h / 8000)) ∧
    (∀ h1 h2 : ℝ, h1 < h2 → getAirDensity h2 < getAirDensity h1) ∧
    (∀ h : ℝ, h < 0 → 1.225 < getAirDensity h) := by
  refine ⟨fun h => rfl, fun h1 h2 hlt => ?_, fun h hneg => ?_⟩
  · unfold getAirDensity seaLevelDensity
    have hexp : Real.exp (-h2 / 8000) < Real.exp (-h1 / 8000) :=
      Real.exp_lt_exp.mpr (by linarith)
    nlinarith [Real.exp_pos (-h2 / 8000)]
  · unfold getAirDensity seaLevelDensity
    have hexp : 1 < Real.exp (-h / 8000) := by
      calc (1 : ℝ) = Real.exp 0 := Real.exp_zero.symm
        _ < Real.exp (-h / 8000) := Real.exp_lt_exp.mpr (by linarith)
    nlinarith

/-- Witness for C5 at concrete altitudes 0, 1 and -1. -/
theorem C5_air_density_witness :
    ((0 : ℝ) < 1 ∧ getAirDensity 1 < getAirDensity 0) ∧
    ((-1 : ℝ) < 0 ∧ 1.225 < getAirDensity (-1)) :=
  ⟨⟨by norm_num, C5_air_density.2.1 0 1 (by norm_num)⟩,
   ⟨by norm_num, C5_air_density.2.2 (-1) (by norm_num)⟩⟩

/-- C6: `setThrottle` stores exactly the clamp of its input to [0,1] and
`setControlSurfaces` the clamps to [-1,1]; in particular the spec's
concrete cases hold, and out-of-range inputs are silently clamped (the
operations are total and never reject). -/
theorem C6_input_clamping :
    (∀ (fd : FlightDynamics) (v : ℝ),
      (setThrottle fd v).state.throttle = max 0 (min 1 v)) ∧
    (∀ (fd : FlightDynamics) (a e r : ℝ),
      (setControlSurfaces fd a e r).state.aileron = max (-1) (min 1 a) ∧
      (setControlSurfaces fd a e r).state.elevator = max (-1) (min 1 e) ∧
      (setControlSurfaces fd a e r).state.rudder = max (-1) (min 1 r)) ∧
    (∀ fd : FlightDynamics,
      (setThrottle fd (-1)).state.throttle = 0 ∧
      (setThrottle fd 2).state.throttle = 1 ∧
      (setControlSurfaces fd 2 (-2) 0).state.aileron = 1 ∧
      (setControlSurfaces fd 2 (-2) 0).state.elevator = -1) := by
  refine ⟨fun fd v => rfl, fun fd a e r => ⟨rfl, rfl, rfl⟩, fun fd => ?_⟩
  refine ⟨?_, ?_, ?_, ?_⟩ <;>
    · show clamp _ _ _ = _
      unfold clamp
      rw [min_def, max_def]
      norm_num

/-- C7: `setAircraftType` with any name other than `"F-16"` is a silent
no-op (the whole record, properties and all state, is unchanged), while
`"F-16"` replaces the entire properties record by the preset and touches
nothing else. -/
theorem C7_set_aircraft_type :
    (∀ (fd : FlightDynamics) (type : String),
      type ≠ "F-16" → setAircraftType fd type = fd) ∧
    (∀ fd : FlightDynamics,
      (setAircraftType fd "F-16").props = f16Properties ∧
      (setAircraftType fd "F-16").state = fd.state ∧
      (setAircraftType fd "F-16").fuel = fd.fuel) := by
  constructor
  · intro fd type h
    unfold setAircraftType
    rw [if_neg h]
  · intro fd
    unfold setAircraftType
    rw [if_pos rfl]
    exact ⟨rfl, rfl, rfl⟩

/-- Witness for C7 at the spec's concrete unknown name. -/
theorem C7_set_aircraft_type_witness :
    "unknown-type" ≠ "F-16" ∧
    setAircraftType mkFlightDynamics "unknown-type" = mkFlightDynamics :=
  ⟨by decide,
   C7_set_aircraft_type.1 mkFlightDynamics "unknown-type" (by decide)⟩

/-- C8: whenever `update` is entered with positive `emptyMass` and
nonnegative fuel, the mass written in step 1 equals `emptyMass + fuel`
and is strictly positive, so the force-to-acceleration division divides
by a nonzero quantity. -/
theorem C8_mass_positive (fd : FlightDynamics) (dt : ℝ)
    (hm : 0 < fd.props.emptyMass) (hf : 0 ≤ fd.fuel) :
    (update fd dt).state.mass = fd.props.emptyMass + fd.fuel ∧
    0 < (update fd dt).state.mass ∧
    (update fd dt).state.mass ≠ 0 := by
  refine ⟨update_mass fd dt, ?_, ?_⟩ <;> rw [update_mass]
  · linarith
  · positivity

/-- Witness for C8 on the freshly constructed instance. -/
theorem C8_mass_positive_witness :
    (0 < mkFlightDynamics.props.emptyMass ∧ 0 ≤ mkFlightDynamics.fuel) ∧
    0 < (update mkFlightDynamics 0).state.mass :=
  ⟨⟨by norm_num [mkFlightDynamics, reset, f16Properties],
    by norm_num [mkFlightDynamics, reset, f16Properties]⟩,
   (C8_mass_positive mkFlightDynamics 0
      (by norm_num [mkFlightDynamics, reset, f16Properties])
      (by norm_num [mkFlightDynamics, reset, f16Properties])).2.1⟩

/-- C9: `reset` restores the default-constructed state and sets fuel to
half of the *current* `maxFuel`, while the properties record — including
one just modified by `setAircraftProperties` — is left untouched. -/
theorem C9_reset_frame :
    (∀ fd : FlightDynamics,
      (reset fd).props = fd.props ∧
      (reset fd).state = AircraftState.initial ∧
      (reset fd).fuel = fd.props.maxFuel * 0.5) ∧
    (∀ (fd : FlightDynamics)
       (eM mF wA mT tM cP cN mS xS : ℝ),
      (reset (setAircraftProperties fd eM mF wA mT tM cP cN mS xS)).props =
        (setAircraftProperties fd eM mF wA mT tM cP cN mS xS).props ∧
      (reset (setAircraftProperties fd eM mF wA mT tM cP cN mS xS)).fuel =
        mF * 0.5) :=
  ⟨fun _ => ⟨rfl, rfl, rfl⟩, fun _ _ _ _ _ _ _ _ _ _ => ⟨rfl, rfl⟩⟩

/-- C1 (amended): after every `update(dt)`, `mass` equals `emptyMass`
plus the fuel value *at entry to that update* — step 1 writes the mass
before step 3 burns fuel, so equality with the post-update fuel holds
only on ticks that burn nothing. -/
theorem C1_mass_invariant (fd : FlightDynamics) (dt : ℝ) :
    (update fd dt).state.mass = fd.props.emptyMass + fd.fuel :=
  update_mass fd dt

/-- C1 counterexample: one full-throttle 1-second update burns 10.16 kg,
so afterwards `mass ≠ emptyMass + fuel` — off by 10.16 kg, far beyond any
floating tolerance. -/
theorem C1_counterexample :
    (update (setThrottle mkFlightDynamics 1) 1).state.mass ≠
      (update (setThrottle mkFlightDynamics 1) 1).props.emptyMass +
        (update (setThrottle mkFlightDynamics 1) 1).fuel ∧
    (update (setThrottle mkFlightDynamics 1) 1).state.mass -
      ((update (setThrottle mkFlightDynamics 1) 1).props.emptyMass +
        (update (setThrottle mkFlightDynamics 1) 1).fuel) = 10.16 := by
  have hmass : (update (setThrottle mkFlightDynamics 1) 1).state.mass =
      8570 + 1587.5 := by
    rw [update_mass]
    norm_num [setThrottle, mkFlightDynamics, reset, f16Properties]
  have hprops : (update (setThrottle mkFlightDynamics 1) 1).props.emptyMass =
      8570 := by
    rw [update_props]
    norm_num [setThrottle, mkFlightDynamics, reset, f16Properties]
  have hfuel : (update (setThrottle mkFlightDynamics 1) 1).fuel = 1577.34 := by
    rw [update_fuel]
    norm_num [setThrottle, mkFlightDynamics, reset, f16Properties, clamp,
      min_def, max_def]
  rw [hmass, hprops, hfuel]
  norm_num

/-- C2 (amended): along any sequence of `update(dt)` calls whose time
steps are all nonnegative (and from any reachable configuration —
`thrustSFC` is the fixed positive F-16 constant and fuel starts
nonnegative), fuel is non-increasing at every point of the sequence and
never becomes negative. -/
theorem C2_fuel_monotone (fd : FlightDynamics) (dts : List ℝ)
    (hSFC : 0 ≤ fd.props.thrustSFC) (hf : 0 ≤ fd.fuel)
    (hdts : ∀ d ∈ dts, 0 ≤ d) :
    (∀ pre suf, dts = pre ++ suf →
      (updateSeq fd dts).fuel ≤ (updateSeq fd pre).fuel) ∧
    0 ≤ (updateSeq fd dts).fuel := by
  constructor
  · intro pre suf hsplit
    subst hsplit
    have hsuf : ∀ d ∈ suf, 0 ≤ d := fun d hd =>
      hdts d (List.mem_append_right _ hd)
    have hfold : updateSeq fd (pre ++ suf) =
        updateSeq (updateSeq fd pre) suf := by
      unfold updateSeq
      rw [List.foldl_append]
    rw [hfold]
    exact (updateSeq_fuel (updateSeq fd pre) suf
      (by rw [updateSeq_props]; exact hSFC) hsuf).1
  · exact (updateSeq_fuel fd dts hSFC hdts).2 hf

/-- Witness for C2: full throttle, two one-second steps. -/
theorem C2_fuel_monotone_witness :
    (0 ≤ (setThrottle mkFlightDynamics 1).props.thrustSFC ∧
     0 ≤ (setThrottle mkFlightDynamics 1).fuel ∧
     (∀ d ∈ [(1 : ℝ), 1], 0 ≤ d)) ∧
    0 ≤ (updateSeq (setThrottle mkFlightDynamics 1) [1, 1]).fuel := by
  have h1 : 0 ≤ (setThrottle mkFlightDynamics 1).props.thrustSFC := by
    norm_num [setThrottle, mkFlightDynamics, reset, f16Properties]
  have h2 : 0 ≤ (setThrottle mkFlightDynamics 1).fuel := by
    norm_num [setThrottle, mkFlightDynamics, reset, f16Properties]
  have h3 : ∀ d ∈ [(1 : ℝ), 1], 0 ≤ d := by
    intro d hd
    rcases List.mem_cons.mp hd with h | h
    · rw [h]; norm_num
    · rw [List.mem_singleton.mp h]; norm_num
  exact ⟨⟨h1, h2, h3⟩,
    (C2_fuel_monotone (setThrottle mkFlightDynamics 1) [1, 1] h1 h2 h3).2⟩

/-- C2 counterexample: the code accepts a negative `dt` and integrates it
literally, so an `update(-1)` at full throttle *increases* fuel — update
can replenish fuel, contradicting the unconditional claim. -/
theorem C2_counterexample :
    (setThrottle mkFlightDynamics 1).fuel <
      (update (setThrottle mkFlightDynamics 1) (-1)).fuel := by
  have h1 : (setThrottle mkFlightDynamics 1).fuel = 1587.5 := by
    norm_num [setThrottle, mkFlightDynamics, reset, f16Properties]
  have h2 : (update (setThrottle mkFlightDynamics 1) (-1)).fuel = 1597.66 := by
    rw [update_fuel]
    norm_num [setThrottle, mkFlightDynamics, reset, f16Properties, clamp,
      min_def, max_def]
  rw [h1, h2]
  norm_num

/-- C3 (amended): after every `update` — from *any* configuration and for
any `dt` — heading and roll lie in the closed interval `[-π, π]`, pitch in
`[-0.45π, 0.45π]`, and the angular rates within ±5/±3/±2 rad/s, whatever
the computed moments are.  (The endpoint `-π` is attainable: see the
counterexample.) -/
theorem C3_angle_and_rate_bounds (fd : FlightDynamics) (dt : ℝ) :
    (-π ≤ (update fd dt).state.heading ∧ (update fd dt).state.heading ≤ π) ∧
    (-π ≤ (update fd dt).state.roll ∧ (update fd dt).state.roll ≤ π) ∧
    (-(π * 0.45) ≤ (update fd dt).state.pitch ∧
      (update fd dt).state.pitch ≤ π * 0.45) ∧
    |(update fd dt).state.rollRate| ≤ 5 ∧
    |(update fd dt).state.pitchRate| ≤ 3 ∧
    |(update fd dt).state.headingRate| ≤ 2 := by
  refine ⟨?_, ?_, ?_, ?_, ?_, ?_⟩
  · rw [update_heading_shape]
    exact wrapAngle_mem _
  · rw [update_roll_shape]
    exact wrapAngle_mem _
  · rw [update_pitch_shape]
    exact ⟨le_clamp _ _ _, clamp_le _ _ _ (by nlinarith [Real.pi_pos])⟩
  · obtain ⟨a, ha⟩ := update_rollRate_shape fd dt
    rw [ha]
    exact abs_clamp_le _ _ (by norm_num)
  · obtain ⟨a, ha⟩ := update_pitchRate_shape fd dt
    rw [ha]
    exact abs_clamp_le _ _ (by norm_num)
  · obtain ⟨a, ha⟩ := update_headingRate_shape fd dt
    rw [ha]
    exact abs_clamp_le _ _ (by norm_num)

/-- C3 counterexample: initialise with heading exactly `-π` (legal: the
caller's heading is stored unwrapped) and run `update(0)`.  The wrap
loops leave `-π` untouched, so the post-update heading is `-π`, which is
*not* in the claimed half-open interval `(-π, π]`. -/
theorem C3_counterexample :
    (update (initialise mkFlightDynamics ⟨0, 0, 0⟩ (-π)) 0).state.heading =
      -π ∧
    ¬(-π <
      (update (initialise mkFlightDynamics ⟨0, 0, 0⟩ (-π)) 0).state.heading) := by
  have e : (update (initialise mkFlightDynamics ⟨0, 0, 0⟩ (-π)) 0).state.heading
      = -π := by
    rw [update_heading_shape, mul_zero, add_zero]
    show wrapAngle (-π) = -π
    exact wrapAngle_eq_self _ (le_refl _) (by linarith [Real.pi_pos])
  exact ⟨e, by rw [e]; exact lt_irrefl _⟩

/-- The operation sequence of the spec's Scenario A:
`initialize((0,1000,0), 0); setThrottle(0); setControlSurfaces(0,0,0)`
on a fresh instance. -/
def scenarioAPre : FlightDynamics :=
  setControlSurfaces
    (setThrottle (initialise mkFlightDynamics ⟨0, 1000, 0⟩ 0) 0) 0 0 0

/-- The configuration Scenario A's setters produce, written out. -/
def scenarioAStart : FlightDynamics :=
  ⟨{ position := ⟨0, 1000, 0⟩
     velocity := ⟨100, 0, 0⟩
     heading := 0, pitch := 0, roll := 0
     headingRate := 0, pitchRate := 0, rollRate := 0
     throttle := 0, thrust := 0
     aileron := 0, elevator := 0, rudder := 0
     mass := 10000, altitude := 1000, airspeed := 100 },
   f16Properties, 1587.5⟩

theorem scenarioAPre_eq : scenarioAPre = scenarioAStart := by
  unfold scenarioAPre scenarioAStart setControlSurfaces setThrottle initialise
    mkFlightDynamics reset
  norm_num [clamp_eq_self, AircraftState.initial, f16Properties,
    length_100]

/-- In a state moving horizontally at 100 m/s with zero pitch, heading
and F-16 properties, the vertical aerodynamic force component vanishes:
the angle of attack is 0, hence the lift coefficient and the lift are 0;
the drag direction is horizontal. -/
theorem scenarioA_aero_y (fd : FlightDynamics)
    (hp : fd.props = f16Properties)
    (hvel : fd.state.velocity = ⟨100, 0, 0⟩)
    (hpitch : fd.state.pitch = 0)
    (hhead : fd.state.heading = 0) :
    (calculateAerodynamicForces fd).y = 0 := by
  unfold calculateAerodynamicForces
  rw [hp, hvel, hpitch, hhead]
  norm_num [f16Properties, length_100, Vec3.normalized, Vec3.length,
    Vec3.add, Vec3.smul, atan2, Real.arctan_zero, Real.sin_zero,
    Real.cos_zero, sqrt_ten_thousand, Real.sqrt_one, min_def, max_def]

/-- C4: Scenario A — from a fresh instance, after
`initialize((0,1000,0), 0)`, `setThrottle(0)`, `setControlSurfaces(0,0,0)`
and one `update(0.1)`, the vertical velocity strictly decreases (weight
pulls down, and the lift at the initial zero angle of attack is zero)
and the fuel is unchanged because the thrust is zero. -/
theorem C4_scenario_a :
    (update scenarioAPre 0.1).state.velocity.y <
      scenarioAPre.state.velocity.y ∧
    (update scenarioAPre 0.1).fuel = scenarioAPre.fuel := by
  rw [scenarioAPre_eq]
  constructor
  · rw [update_velocity_y]
    rw [scenarioA_aero_y _ rfl rfl rfl rfl]
    norm_num [scenarioAStart, f16Properties, gravity, Real.sin_zero]
  · rw [update_fuel]
    norm_num [scenarioAStart, f16Properties]

/-- C10: with `dt = 0`, `update` fixes every primary dynamic field —
position, velocity, fuel, the three Euler angles and the three angular
rates — provided the angles and rates already sit in their invariant
ranges (heading/roll in `(-π, π]`, pitch in `[-0.45π, 0.45π]`, rates
within ±5/±3/±2). -/
theorem C10_update_zero_identity (fd : FlightDynamics)
    (h1 : -π < fd.state.heading) (h2 : fd.state.heading ≤ π)
    (h3 : -π < fd.state.roll) (h4 : fd.state.roll ≤ π)
    (h5 : -(π * 0.45) ≤ fd.state.pitch) (h6 : fd.state.pitch ≤ π * 0.45)
    (h7 : |fd.state.rollRate| ≤ 5) (h8 : |fd.state.pitchRate| ≤ 3)
    (h9 : |fd.state.headingRate| ≤ 2) :
    (update fd 0).state.position = fd.state.position ∧
    (update fd 0).state.velocity = fd.state.velocity ∧
    (update fd 0).fuel = fd.fuel ∧
    (update fd 0).state.heading = fd.state.heading ∧
    (update fd 0).state.pitch = fd.state.pitch ∧
    (update fd 0).state.roll = fd.state.roll ∧
    (update fd 0).state.rollRate = fd.state.rollRate ∧
    (update fd 0).state.pitchRate = fd.state.pitchRate ∧
    (update fd 0).state.headingRate = fd.state.headingRate := by
  have hrr : (update fd 0).state.rollRate = fd.state.rollRate := by
    obtain ⟨a, ha⟩ := update_rollRate_shape fd 0
    rw [ha, mul_zero, add_zero]
    obtain ⟨hl, hr⟩ := abs_le.mp h7
    exact clamp_eq_self _ _ _ hl hr
  have hpr : (update fd 0).state.pitchRate = fd.state.pitchRate := by
    obtain ⟨a, ha⟩ := update_pitchRate_shape fd 0
    rw [ha, mul_zero, add_zero]
    obtain ⟨hl, hr⟩ := abs_le.mp h8
    exact clamp_eq_self _ _ _ hl hr
  have hhr : (update fd 0).state.headingRate = fd.state.headingRate := by
    obtain ⟨a, ha⟩ := update_headingRate_shape fd 0
    rw [ha, mul_zero, add_zero]
    obtain ⟨hl, hr⟩ := abs_le.mp h9
    exact clamp_eq_self _ _ _ hl hr
  refine ⟨?_, ?_, ?_, ?_, ?_, ?_, hrr, hpr, hhr⟩
  · rw [update_position_shape]
    ext <;> simp [Vec3.add, Vec3.smul]
  · obtain ⟨a, ha⟩ := update_velocity_shape fd 0
    rw [ha]
    ext <;> simp [Vec3.add, Vec3.smul]
  · rw [update_fuel]
    split_ifs with h
    · rw [mul_zero, sub_zero]
      exact max_eq_right h.2.le
    · rfl
  · rw [update_heading_shape, mul_zero, add_zero]
    exact wrapAngle_eq_self _ h1.le h2
  · rw [update_pitch_shape, mul_zero, add_zero]
    exact clamp_eq_self _ _ _ h5 h6
  · rw [update_roll_shape, mul_zero, add_zero]
    exact wrapAngle_eq_self _ h3.le h4

/-- Witness for C10 on the freshly constructed instance (all angles and
rates zero). -/
theorem C10_update_zero_identity_witness :
    (-π < mkFlightDynamics.state.heading ∧
      |mkFlightDynamics.state.rollRate| ≤ 5) ∧
    ((update mkFlightDynamics 0).state.velocity =
        mkFlightDynamics.state.velocity ∧
      (update mkFlightDynamics 0).fuel = mkFlightDynamics.fuel) := by
  have hpi := Real.pi_pos
  have hh1 : -π < mkFlightDynamics.state.heading := by
    show -π < (0 : ℝ)
    linarith
  have hh2 : mkFlightDynamics.state.heading ≤ π := by
    show (0 : ℝ) ≤ π
    linarith
  have hh3 : -π < mkFlightDynamics.state.roll := by
    show -π < (0 : ℝ)
    linarith
  have hh4 : mkFlightDynamics.state.roll ≤ π := by
    show (0 : ℝ) ≤ π
    linarith
  have hh5 : -(π * 0.45) ≤ mkFlightDynamics.state.pitch := by
    show -(π * 0.45) ≤ (0 : ℝ)
    nlinarith
  have hh6 : mkFlightDynamics.state.pitch ≤ π * 0.45 := by
    show (0 : ℝ) ≤ π * 0.45
    nlinarith
  have hh7 : |mkFlightDynamics.state.rollRate| ≤ 5 := by
    show |(0 : ℝ)| ≤ 5
    norm_num
  have hh8 : |mkFlightDynamics.state.pitchRate| ≤ 3 := by
    show |(0 : ℝ)| ≤ 3
    norm_num
  have hh9 : |mkFlightDynamics.state.headingRate| ≤ 2 := by
    show |(0 : ℝ)| ≤ 2
    norm_num
  have h := C10_update_zero_identity mkFlightDynamics
    hh1 hh2 hh3 hh4 hh5 hh6 hh7 hh8 hh9
  exact ⟨⟨hh1, hh7⟩, ⟨h.2.1, h.2.2.1⟩⟩

end WebFlight
